import Mathlib

/-!
Verification of the streaming-recognition bridge and the token cache of
`tomoru-google-helpers-rs`, as a shallow embedding of
`src/yandex/streaming_stt.rs` and `src/yandex/auth.rs`.

The streaming side (`streaming_recognize`) is modelled as a labelled
transition system over an explicit session state: the unbounded audio
channel, the request-stream generator (an `async_stream` that first yields
the configuration message and then forwards audio frames FIFO), and the
spawned background task that performs the gRPC handshake and relays the
response stream into the result channel.  Every `unwrap()` in the spawned
task is modelled as a `panicked` task phase: the task dies, the channels it
owns are dropped (hence closed), and nothing is ever sent on them again.

The auth side (`get_auth_token` / `get_iam_token`) is modelled as a pure
function from the cache state, the current time, and an oracle describing
the outcome of the one possible network exchange.  A failing `unwrap()`
(signing or exchange failure) is modelled as the function returning no
value (`none`), since the Rust code panics instead of returning an error.
-/

/-- An audio frame is an opaque byte buffer (`Vec<u8>` in the Rust code). -/
abbrev AudioFrame := List Nat

/-- `yandex.cloud.ai.stt.v2.RecognitionSpec.AudioEncoding`.  The protobuf
module `yandex::generated` is emitted by `build.rs` at build time and its
source is not in the repository tree; the variant numbering follows the
Yandex STT v2 protocol definition compiled by `build.rs`
(`AUDIO_ENCODING_UNSPECIFIED = 0`, `LINEAR16_PCM = 1`, `OGG_OPUS = 2`). -/
inductive AudioEncoding
  | audioEncodingUnspecified
  | linear16Pcm
  | oggOpus
deriving DecidableEq

/-- The numeric protobuf value, i.e. the Rust `as i32` cast. -/
def AudioEncoding.toInt : AudioEncoding → Int
  | .audioEncodingUnspecified => 0
  | .linear16Pcm => 1
  | .oggOpus => 2

/-- `v2::RecognitionSpec` (fields as used by `default_config`,
src/yandex/streaming_stt.rs lines 35-45). -/
structure RecognitionSpec where
  audio_encoding : Int
  sample_rate_hertz : Int
  language_code : String
  profanity_filter : Bool
  model : String
  partial_results : Bool
  single_utterance : Bool
  audio_channel_count : Int
  raw_results : Bool
deriving DecidableEq

/-- `v2::RecognitionConfig` (src/yandex/streaming_stt.rs lines 34-47). -/
structure RecognitionConfig where
  specification : Option RecognitionSpec
  folder_id : String
deriving DecidableEq

/-- `fn default_config(folder_id: String) -> v2::RecognitionConfig`
(src/yandex/streaming_stt.rs lines 33-48). -/
def default_config (folder_id : String) : RecognitionConfig :=
  { specification := some
      { audio_encoding := AudioEncoding.linear16Pcm.toInt
        sample_rate_hertz := 8000
        language_code := "ru-RU"
        profanity_filter := false
        model := "general:rc"
        partial_results := true
        single_utterance := false
        audio_channel_count := 1
        raw_results := true }
    folder_id := folder_id }

/-- Service responses are pass-through for the bridge (the code never
inspects a `StreamingRecognitionResponse`), so they are opaque here. -/
abbrev StreamingRecognitionResponse := Nat

/-- `v2::streaming_recognition_request::StreamingRequest`: either the
configuration message or one chunk of audio. -/
inductive StreamingRequest
  | config (c : RecognitionConfig)
  | audioContent (a : AudioFrame)
deriving DecidableEq

/-- `v2::StreamingRecognitionRequest` (the oneof wrapper). -/
structure StreamingRecognitionRequest where
  streaming_request : Option StreamingRequest
deriving DecidableEq

/-- The configuration message yielded first by the request stream
(src/yandex/streaming_stt.rs lines 80-84). -/
def configMsg (c : RecognitionConfig) : StreamingRecognitionRequest :=
  { streaming_request := some (StreamingRequest.config c) }

/-- An audio message yielded by the request stream's forwarding loop
(src/yandex/streaming_stt.rs lines 87-91). -/
def audioMsg (a : AudioFrame) : StreamingRecognitionRequest :=
  { streaming_request := some (StreamingRequest.audioContent a) }

/-- Phase of the `async_stream` request generator:
`notStarted` = not yet polled (config not yet yielded); `looping` = config
yielded, inside the `while let` forwarding loop; `done` = the audio channel
returned `None` (all senders dropped and queue drained), generator
complete, write half closed normally; `dead` = the generator was dropped
because the spawned task panicked. -/
inductive GenPhase
  | notStarted
  | looping
  | done
  | dead
deriving DecidableEq

/-- Phase of the spawned background task (src/yandex/streaming_stt.rs
lines 97-103): `connecting` = awaiting `service.streaming_recognize`;
`receiving` = inside the `while let` receive loop; `finished` = the
response stream ended with `None` (service closed its side) and the task
returned; `panicked` = one of the task's `unwrap()` calls failed (handshake
error or mid-session stream error), killing the task. -/
inductive TaskPhase
  | connecting
  | receiving
  | finished
  | panicked
deriving DecidableEq

/-- What the caller can observe on the result channel.  The Rust channel
carries only `StreamingRecognitionResponse` values; the `errorMarker`
constructor exists so the specification's notion of "terminal error
marker" can be stated at all — the transition system below never emits
it, which is exactly what the error-marker claims turn on. -/
inductive ResultEvent
  | message (r : StreamingRecognitionResponse)
  | errorMarker
deriving DecidableEq

/-- One streaming session of `streaming_recognize`
(src/yandex/streaming_stt.rs lines 50-106).  `queue` is the content of the
unbounded audio channel, `enqueued` the (ghost) list of all frames ever
accepted by `audio_sender.send`, `sent` the messages yielded so far on the
request stream, `results` everything delivered so far on the result
channel, `resultClosed` whether `result_sender` has been dropped,
`handshakeDone` the (ghost) flag recording whether the gRPC handshake ever
succeeded. -/
structure SessionState where
  usedConfig : RecognitionConfig
  queue : List AudioFrame
  sinkClosed : Bool
  enqueued : List AudioFrame
  sent : List StreamingRecognitionRequest
  genPhase : GenPhase
  taskPhase : TaskPhase
  handshakeDone : Bool
  results : List ResultEvent
  resultClosed : Bool
deriving DecidableEq

/-- The state right after `streaming_recognize(config)` returns the
`(audio_sender, result_receiver)` pair: the config defaulting of line 57
has happened, both channels are empty and open, the generator has not been
polled, and the spawned task is awaiting the handshake. -/
def streaming_recognize_init (config : Option RecognitionConfig)
    (folder_id : String) : SessionState :=
  { usedConfig := config.getD (default_config folder_id)
    queue := []
    sinkClosed := false
    enqueued := []
    sent := []
    genPhase := GenPhase.notStarted
    taskPhase := TaskPhase.connecting
    handshakeDone := false
    results := []
    resultClosed := false }

/-- Small-step semantics of one session.  Each rule is one observable
event of the Rust code; the preconditions are exactly the conditions under
which that event can occur there. -/
inductive SessionStep : SessionState → SessionState → Prop
  /-- The caller calls `audio_sender.send(f)`; it succeeds while the
  receiver (owned by the generator) is alive. -/
  | enqueue (s : SessionState) (f : AudioFrame)
      (h1 : s.sinkClosed = false)
      (h2 : s.genPhase = GenPhase.notStarted ∨ s.genPhase = GenPhase.looping) :
      SessionStep s { s with queue := s.queue ++ [f], enqueued := s.enqueued ++ [f] }
  /-- The caller drops `audio_sender` (closes the AudioSink). -/
  | closeSink (s : SessionState)
      (h1 : s.sinkClosed = false) :
      SessionStep s { s with sinkClosed := true }
  /-- First poll of the generator: the configuration message is yielded
  (lines 79-84). -/
  | yieldConfig (s : SessionState)
      (h1 : s.genPhase = GenPhase.notStarted)
      (h2 : s.taskPhase ≠ TaskPhase.panicked) :
      SessionStep s { s with sent := s.sent ++ [configMsg s.usedConfig],
                             genPhase := GenPhase.looping }
  /-- The forwarding loop receives the head frame of the audio channel and
  yields it (lines 86-92). -/
  | yieldAudio (s : SessionState) (f : AudioFrame) (rest : List AudioFrame)
      (h1 : s.genPhase = GenPhase.looping)
      (h2 : s.taskPhase ≠ TaskPhase.panicked)
      (h3 : s.queue = f :: rest) :
      SessionStep s { s with queue := rest, sent := s.sent ++ [audioMsg f] }
  /-- `audio_receiver.recv()` returns `None`: only possible once the sink
  is closed and every enqueued frame has been drained; the generator
  completes, closing the stream's write half. -/
  | genFinish (s : SessionState)
      (h1 : s.genPhase = GenPhase.looping)
      (h2 : s.queue = [])
      (h3 : s.sinkClosed = true)
      (h4 : s.taskPhase ≠ TaskPhase.panicked) :
      SessionStep s { s with genPhase := GenPhase.done }
  /-- `service.streaming_recognize(stream).await` returns `Ok` (line 98). -/
  | handshakeOk (s : SessionState)
      (h1 : s.taskPhase = TaskPhase.connecting) :
      SessionStep s { s with taskPhase := TaskPhase.receiving, handshakeDone := true }
  /-- `service.streaming_recognize(stream).await` returns `Err`: the
  `unwrap()` on line 98 panics, the task dies, the request stream and
  `result_sender` are dropped.  No value of any kind is sent on the result
  channel; it is merely closed. -/
  | handshakeErr (s : SessionState)
      (h1 : s.taskPhase = TaskPhase.connecting) :
      SessionStep s { s with taskPhase := TaskPhase.panicked,
                             genPhase := GenPhase.dead, resultClosed := true }
  /-- `inner.message()` yields `Ok(Some(m))`: the task forwards it into the
  result channel (lines 100-101). -/
  | recvMessage (s : SessionState) (r : StreamingRecognitionResponse)
      (h1 : s.taskPhase = TaskPhase.receiving) :
      SessionStep s { s with results := s.results ++ [ResultEvent.message r] }
  /-- `inner.message()` yields `Ok(None)`: the service closed its side, the
  loop exits, the task returns, `result_sender` is dropped. -/
  | recvEnd (s : SessionState)
      (h1 : s.taskPhase = TaskPhase.receiving) :
      SessionStep s { s with taskPhase := TaskPhase.finished, resultClosed := true }
  /-- `inner.message()` yields `Err`: the `unwrap()` on line 100 panics
  mid-session; the task dies, the request stream and `result_sender` are
  dropped.  No error value reaches the result channel — it just closes. -/
  | streamError (s : SessionState)
      (h1 : s.taskPhase = TaskPhase.receiving) :
      SessionStep s { s with taskPhase := TaskPhase.panicked,
                             genPhase := GenPhase.dead, resultClosed := true }

/-- The states one session of `streaming_recognize(config)` (running
against a service configured with `folder_id`) can reach. -/
inductive SessionReachable (config : Option RecognitionConfig)
    (folder_id : String) : SessionState → Prop
  | init : SessionReachable config folder_id (streaming_recognize_init config folder_id)
  | step {s t : SessionState} :
      SessionReachable config folder_id s → SessionStep s t →
      SessionReachable config folder_id t

/-- Reflexive-transitive closure of `SessionStep`: what can still happen
from a given session state onward. -/
inductive SessionStepStar : SessionState → SessionState → Prop
  | refl (s : SessionState) : SessionStepStar s s
  | tail {s t u : SessionState} :
      SessionStepStar s t → SessionStep t u → SessionStepStar s u

/-- Is a request-stream message the configuration message? -/
def isConfigMsg : StreamingRecognitionRequest → Bool
  | { streaming_request := some (StreamingRequest.config _) } => true
  | { streaming_request := some (StreamingRequest.audioContent _) } => false
  | { streaming_request := none } => false

/-- How many configuration messages a request-stream history holds. -/
def configCount (l : List StreamingRecognitionRequest) : Nat :=
  (l.filter isConfigMsg).length

/-- The audio payload of one request-stream message, if any. -/
def payloadOf : StreamingRecognitionRequest → Option AudioFrame
  | { streaming_request := some (StreamingRequest.audioContent a) } => some a
  | { streaming_request := some (StreamingRequest.config _) } => none
  | { streaming_request := none } => none

/-- The audio payloads of a request-stream history, in stream order. -/
def audioPayloads (l : List StreamingRecognitionRequest) : List AudioFrame :=
  l.filterMap payloadOf

/-- Is a result-channel event the specification's terminal error marker? -/
def isErrorMarker : ResultEvent → Bool
  | ResultEvent.errorMarker => true
  | ResultEvent.message _ => false

/-- How many error markers a result-channel history holds. -/
def errorCount (l : List ResultEvent) : Nat :=
  (l.filter isErrorMarker).length


theorem isConfigMsg_configMsg (c : RecognitionConfig) : isConfigMsg (configMsg c) = true := rfl

theorem isConfigMsg_audioMsg (a : AudioFrame) : isConfigMsg (audioMsg a) = false := rfl

theorem payloadOf_configMsg (c : RecognitionConfig) : payloadOf (configMsg c) = none := rfl

theorem payloadOf_audioMsg (a : AudioFrame) : payloadOf (audioMsg a) = some a := rfl

theorem isErrorMarker_message (r : StreamingRecognitionResponse) :
    isErrorMarker (ResultEvent.message r) = false := rfl

theorem audioPayloads_append_config (l : List StreamingRecognitionRequest)
    (c : RecognitionConfig) :
    audioPayloads (l ++ [configMsg c]) = audioPayloads l := by
  simp [audioPayloads, List.filterMap_append, payloadOf_configMsg]

theorem audioPayloads_append_audio (l : List StreamingRecognitionRequest)
    (a : AudioFrame) :
    audioPayloads (l ++ [audioMsg a]) = audioPayloads l ++ [a] := by
  simp [audioPayloads, List.filterMap_append, payloadOf_audioMsg]

theorem audioPayloads_map_audioMsg (l : List AudioFrame) :
    audioPayloads (List.map audioMsg l) = l := by
  induction l with
  | nil => rfl
  | cons a rest ih =>
      simp only [List.map_cons, audioPayloads, List.filterMap_cons, payloadOf_audioMsg]
      simpa [audioPayloads] using ih

theorem filter_isConfigMsg_map_audioMsg (l : List AudioFrame) :
    List.filter isConfigMsg (List.map audioMsg l) = [] := by
  induction l with
  | nil => rfl
  | cons a rest ih => simp [List.filter_cons, isConfigMsg_audioMsg, ih]

theorem configCount_map_audioMsg (l : List AudioFrame) :
    configCount (List.map audioMsg l) = 0 := by
  simp [configCount, filter_isConfigMsg_map_audioMsg]

theorem configCount_shape (c : RecognitionConfig) (audios : List AudioFrame) :
    configCount (configMsg c :: List.map audioMsg audios) = 1 := by
  simp [configCount, List.filter_cons, isConfigMsg_configMsg,
    filter_isConfigMsg_map_audioMsg]

theorem errorCount_append_message (l : List ResultEvent)
    (r : StreamingRecognitionResponse) :
    errorCount (l ++ [ResultEvent.message r]) = errorCount l := by
  simp [errorCount, List.filter_append, List.filter_cons, isErrorMarker_message]

/-- The inductive invariant of one streaming session.  Its fields, in
order: the request stream is empty or the configuration message followed
by audio messages only; nothing is sent before the generator's first poll;
once the generator runs, the config heads the stream; frames sent so far
followed by the queued frames are exactly all enqueued frames in order;
the generator only finishes after the sink is closed and the queue is
drained; a panicked task has closed the result channel and dropped the
generator; no error marker is ever emitted; no result is delivered before
the handshake succeeds; the receive loop runs only after the handshake. -/
structure SessionInv (s : SessionState) : Prop where
  sent_shape : s.sent = [] ∨
      ∃ audios : List AudioFrame,
        s.sent = configMsg s.usedConfig :: List.map audioMsg audios
  gen_fresh : s.genPhase = GenPhase.notStarted → s.sent = []
  gen_started : s.genPhase = GenPhase.looping ∨ s.genPhase = GenPhase.done →
      ∃ audios : List AudioFrame,
        s.sent = configMsg s.usedConfig :: List.map audioMsg audios
  fifo : audioPayloads s.sent ++ s.queue = s.enqueued
  drained : s.genPhase = GenPhase.done → s.queue = [] ∧ s.sinkClosed = true
  panicked_closed : s.taskPhase = TaskPhase.panicked →
      s.resultClosed = true ∧ s.genPhase = GenPhase.dead
  no_marker : errorCount s.results = 0
  pre_handshake : s.handshakeDone = false → s.results = []
  receiving_handshake : s.taskPhase = TaskPhase.receiving → s.handshakeDone = true

theorem sessionInv_init (config : Option RecognitionConfig) (folder_id : String) :
    SessionInv (streaming_recognize_init config folder_id) := by
  constructor <;> simp [streaming_recognize_init, audioPayloads, errorCount]

theorem sessionInv_step {s t : SessionState}
    (hs : SessionInv s) (st : SessionStep s t) : SessionInv t := by
  cases st with
  | enqueue f h1 h2 =>
      refine ⟨hs.sent_shape, hs.gen_fresh, hs.gen_started, ?_, ?_,
        hs.panicked_closed, hs.no_marker, hs.pre_handshake, hs.receiving_handshake⟩
      · show audioPayloads s.sent ++ (s.queue ++ [f]) = s.enqueued ++ [f]
        rw [← List.append_assoc, hs.fifo]
      · intro hd
        dsimp only at hd
        rcases h2 with h | h <;> rw [h] at hd <;> exact absurd hd (by decide)
  | closeSink h1 =>
      refine ⟨hs.sent_shape, hs.gen_fresh, hs.gen_started, hs.fifo, ?_,
        hs.panicked_closed, hs.no_marker, hs.pre_handshake, hs.receiving_handshake⟩
      intro hd
      dsimp only at hd
      exact ⟨(hs.drained hd).1, rfl⟩
  | yieldConfig h1 h2 =>
      have hempty : s.sent = [] := hs.gen_fresh h1
      refine ⟨?_, ?_, ?_, ?_, ?_, ?_, hs.no_marker, hs.pre_handshake,
        hs.receiving_handshake⟩
      · exact Or.inr ⟨[], by simp [hempty]⟩
      · intro h
        dsimp only at h
        exact absurd h (by decide)
      · intro _
        exact ⟨[], by simp [hempty]⟩
      · show audioPayloads (s.sent ++ [configMsg s.usedConfig]) ++ s.queue = s.enqueued
        rw [audioPayloads_append_config]
        exact hs.fifo
      · intro hd
        dsimp only at hd
        exact absurd hd (by decide)
      · intro hp
        dsimp only at hp
        exact absurd hp h2
  | yieldAudio f rest h1 h2 h3 =>
      obtain ⟨audios, heq⟩ := hs.gen_started (Or.inl h1)
      refine ⟨?_, ?_, ?_, ?_, ?_, ?_, hs.no_marker, hs.pre_handshake,
        hs.receiving_handshake⟩
      · exact Or.inr ⟨audios ++ [f], by simp [heq]⟩
      · intro h
        dsimp only at h
        rw [h1] at h
        exact absurd h (by decide)
      · intro _
        exact ⟨audios ++ [f], by simp [heq]⟩
      · show audioPayloads (s.sent ++ [audioMsg f]) ++ rest = s.enqueued
        rw [audioPayloads_append_audio, List.append_assoc, List.singleton_append]
        rw [← h3]
        exact hs.fifo
      · intro hd
        dsimp only at hd
        rw [h1] at hd
        exact absurd hd (by decide)
      · intro hp
        dsimp only at hp
        exact absurd hp h2
  | genFinish h1 h2 h3 h4 =>
      refine ⟨hs.sent_shape, ?_, ?_, hs.fifo, ?_, ?_, hs.no_marker,
        hs.pre_handshake, hs.receiving_handshake⟩
      · intro h
        dsimp only at h
        exact absurd h (by decide)
      · intro _
        exact hs.gen_started (Or.inl h1)
      · intro _
        exact ⟨h2, h3⟩
      · intro hp
        dsimp only at hp
        exact absurd hp h4
  | handshakeOk h1 =>
      refine ⟨hs.sent_shape, hs.gen_fresh, hs.gen_started, hs.fifo, hs.drained,
        ?_, hs.no_marker, ?_, ?_⟩
      · intro hp
        dsimp only at hp
        exact absurd hp (by decide)
      · intro h
        dsimp only at h
        exact absurd h (by decide)
      · intro _
        rfl
  | handshakeErr h1 =>
      refine ⟨hs.sent_shape, ?_, ?_, hs.fifo, ?_, ?_, hs.no_marker,
        hs.pre_handshake, ?_⟩
      · intro h
        dsimp only at h
        exact absurd h (by decide)
      · intro h
        rcases h with h | h <;> { dsimp only at h; exact absurd h (by decide) }
      · intro hd
        dsimp only at hd
        exact absurd hd (by decide)
      · intro _
        exact ⟨rfl, rfl⟩
      · intro h
        dsimp only at h
        exact absurd h (by decide)
  | recvMessage r h1 =>
      refine ⟨hs.sent_shape, hs.gen_fresh, hs.gen_started, hs.fifo, hs.drained,
        ?_, ?_, ?_, hs.receiving_handshake⟩
      · intro hp
        dsimp only at hp
        rw [h1] at hp
        exact absurd hp (by decide)
      · show errorCount (s.results ++ [ResultEvent.message r]) = 0
        rw [errorCount_append_message]
        exact hs.no_marker
      · intro h
        dsimp only at h
        rw [hs.receiving_handshake h1] at h
        exact absurd h (by decide)
  | recvEnd h1 =>
      refine ⟨hs.sent_shape, hs.gen_fresh, hs.gen_started, hs.fifo, hs.drained,
        ?_, hs.no_marker, hs.pre_handshake, ?_⟩
      · intro hp
        dsimp only at hp
        exact absurd hp (by decide)
      · intro h
        dsimp only at h
        exact absurd h (by decide)
  | streamError h1 =>
      refine ⟨hs.sent_shape, ?_, ?_, hs.fifo, ?_, ?_, hs.no_marker,
        hs.pre_handshake, ?_⟩
      · intro h
        dsimp only at h
        exact absurd h (by decide)
      · intro h
        rcases h with h | h <;> { dsimp only at h; exact absurd h (by decide) }
      · intro hd
        dsimp only at hd
        exact absurd hd (by decide)
      · intro _
        exact ⟨rfl, rfl⟩
      · intro h
        dsimp only at h
        exact absurd h (by decide)

/-- Every reachable session state satisfies the invariant. -/
theorem sessionInv_reachable {config : Option RecognitionConfig}
    {folder_id : String} {s : SessionState}
    (h : SessionReachable config folder_id s) : SessionInv s := by
  induction h with
  | init => exact sessionInv_init config folder_id
  | step _ st ih => exact sessionInv_step ih st

/-- No step changes the session's configuration. -/
theorem sessionStep_usedConfig {s t : SessionState} (st : SessionStep s t) :
    t.usedConfig = s.usedConfig := by
  cases st <;> rfl

/-- Along any run, the configuration in use is the one `streaming_recognize`
computed on line 57: the argument, or `default_config` of the service's
folder id when the argument was `None`. -/
theorem sessionReachable_usedConfig {config : Option RecognitionConfig}
    {folder_id : String} {s : SessionState}
    (h : SessionReachable config folder_id s) :
    s.usedConfig = config.getD (default_config folder_id) := by
  induction h with
  | init => rfl
  | step _ st ih => rw [sessionStep_usedConfig st, ih]

/-- After the background task has panicked (and thus the generator has
been dropped), a single further step can only be the caller dropping its
sink handle: nothing is sent or received, and the phases never change. -/
theorem sessionStep_panicked_frozen {s t : SessionState}
    (hp : s.taskPhase = TaskPhase.panicked) (hd : s.genPhase = GenPhase.dead)
    (st : SessionStep s t) :
    t.taskPhase = TaskPhase.panicked ∧ t.genPhase = GenPhase.dead ∧
    t.sent = s.sent ∧ t.results = s.results ∧
    t.resultClosed = s.resultClosed ∧ t.handshakeDone = s.handshakeDone := by
  cases st with
  | enqueue f h1 h2 =>
      rcases h2 with h | h <;> { rw [hd] at h; exact absurd h (by decide) }
  | closeSink h1 =>
      exact ⟨hp, hd, rfl, rfl, rfl, rfl⟩
  | yieldConfig h1 h2 =>
      rw [hd] at h1
      exact absurd h1 (by decide)
  | yieldAudio f rest h1 h2 h3 =>
      rw [hd] at h1
      exact absurd h1 (by decide)
  | genFinish h1 h2 h3 h4 =>
      rw [hd] at h1
      exact absurd h1 (by decide)
  | handshakeOk h1 =>
      rw [hp] at h1
      exact absurd h1 (by decide)
  | handshakeErr h1 =>
      rw [hp] at h1
      exact absurd h1 (by decide)
  | recvMessage r h1 =>
      rw [hp] at h1
      exact absurd h1 (by decide)
  | recvEnd h1 =>
      rw [hp] at h1
      exact absurd h1 (by decide)
  | streamError h1 =>
      rw [hp] at h1
      exact absurd h1 (by decide)

/-- A panicked session is terminal: under any number of further steps the
task stays panicked, the request stream and result channel histories are
frozen, and the closed/handshake flags keep their values. -/
theorem sessionStepStar_panicked_frozen {s t : SessionState}
    (hp : s.taskPhase = TaskPhase.panicked) (hd : s.genPhase = GenPhase.dead)
    (h : SessionStepStar s t) :
    t.taskPhase = TaskPhase.panicked ∧ t.genPhase = GenPhase.dead ∧
    t.sent = s.sent ∧ t.results = s.results ∧
    t.resultClosed = s.resultClosed ∧ t.handshakeDone = s.handshakeDone := by
  induction h with
  | refl => exact ⟨hp, hd, rfl, rfl, rfl, rfl⟩
  | tail h1 st ih =>
      obtain ⟨a, b, c, d, e, f⟩ := ih
      obtain ⟨a', b', c', d', e', f'⟩ := sessionStep_panicked_frozen a b st
      exact ⟨a', b', c'.trans c, d'.trans d, e'.trans e, f'.trans f⟩

/-- The JWT claim set of `get_iam_token` (src/yandex/auth.rs lines 6-12 and
45-50).  `iat` and `exp` are `u64` seconds since the epoch. -/
structure Claims where
  iss : String
  aud : String
  iat : Nat
  exp : Nat
deriving DecidableEq

/-- The JWT header built on lines 42-43. -/
structure JwtHeader where
  alg : String
  kid : Option String
deriving DecidableEq

/-- `Header::new(Algorithm::PS256)` with `h.kid = Some(...)` (lines 42-43). -/
def assertion_header : JwtHeader :=
  { alg := "PS256", kid := some "aje04ppj0e85d7njj0sf" }

/-- `hour_later` (line 40): `now + 3600` in `u64` arithmetic, so with
wrap-around at `2 ^ 64`. -/
def hour_later (now : Nat) : Nat := (now + 3600) % 2 ^ 64

/-- The claim set signed for one token exchange (lines 45-50). -/
def assertion_claims (now : Nat) : Claims :=
  { iss := "ajede2r7i8dtgcgehtdl"
    aud := "https://iam.api.cloud.yandex.net/iam/v1/tokens"
    iat := now
    exp := hour_later now }

/-- `TokenRequestResult` (src/yandex/auth.rs lines 28-33): the exchanged
IAM token and its absolute expiry (a UTC instant, in seconds here). -/
structure TokenRequestResult where
  iam_token : String
  expires_at : Int
deriving DecidableEq

/-- Outcome of one exchange attempt inside `get_iam_token` (lines 35-65):
either the parsed response, or a failure of assertion signing, of the POST,
or of response parsing — each of which the Rust code `unwrap()`s. -/
inductive FetchOutcome
  | ok (r : TokenRequestResult)
  | failure
deriving DecidableEq

/-- `get_iam_token` as observed by its caller: `some r` is the parsed
response; `none` models the panic of a failing `unwrap()` — the function
never returns a value and never returns an error value either. -/
def get_iam_token : FetchOutcome → Option TokenRequestResult
  | FetchOutcome.ok r => some r
  | FetchOutcome.failure => none

/-- The `TOKEN` cell (src/yandex/auth.rs line 67): `none` while the
`OnceCell` is unset, otherwise the cached `TokenRequestResult`. -/
abbrev TokenCache := Option TokenRequestResult

/-- What one call to `get_auth_token` produces: the returned token string
(`none` when the call panics instead of returning), the cache afterwards,
and how many times `get_iam_token` — one network exchange — was entered. -/
structure AuthCallResult where
  token : Option String
  cache : TokenCache
  fetches : Nat
deriving DecidableEq

/-- `pub async fn get_auth_token()` (src/yandex/auth.rs lines 69-87), run
sequentially: `cache` is the content of `TOKEN` when the call starts, `now`
the value of `chrono::Utc::now()` in the test on line 73, `outcome` what
the network does if an exchange happens.  The freshness test on line 73 is
`expires_at - now > Duration::zero()` — no skew margin is subtracted.
When `get_iam_token` panics, lines 78-80 and 83-85 never run, so `TOKEN`
keeps its previous content. -/
def get_auth_token (cache : TokenCache) (now : Int) (outcome : FetchOutcome) :
    AuthCallResult :=
  match cache with
  | some res =>
      if res.expires_at - now > 0 then
        { token := some res.iam_token, cache := some res, fetches := 0 }
      else
        match get_iam_token outcome with
        | some result =>
            { token := some result.iam_token, cache := some result, fetches := 1 }
        | none => { token := none, cache := some res, fetches := 1 }
  | none =>
      match get_iam_token outcome with
      | some result =>
          { token := some result.iam_token, cache := some result, fetches := 1 }
      | none => { token := none, cache := none, fetches := 1 }

/-- A demonstration session: handshake succeeded, config yielded, one frame
enqueued and forwarded. -/
def demoState : SessionState :=
  { usedConfig := default_config "folder"
    queue := []
    sinkClosed := false
    enqueued := [[7]]
    sent := [configMsg (default_config "folder"), audioMsg [7]]
    genPhase := GenPhase.looping
    taskPhase := TaskPhase.receiving
    handshakeDone := true
    results := []
    resultClosed := false }

theorem demoState_reachable : SessionReachable none "folder" demoState := by
  have h0 : SessionReachable none "folder" (streaming_recognize_init none "folder") :=
    SessionReachable.init
  have h1 := h0.step (SessionStep.handshakeOk _ rfl)
  have h2 := h1.step (SessionStep.yieldConfig _ rfl (by decide))
  have h3 := h2.step (SessionStep.enqueue _ [7] rfl (Or.inr rfl))
  have h4 := h3.step (SessionStep.yieldAudio _ [7] [] rfl (by decide) rfl)
  exact h4

/-- A fully drained session: two frames enqueued, sink closed, both frames
forwarded, generator finished (write half closed normally). -/
def drainedState : SessionState :=
  { usedConfig := default_config "fd"
    queue := []
    sinkClosed := true
    enqueued := [[7], [8]]
    sent := [configMsg (default_config "fd"), audioMsg [7], audioMsg [8]]
    genPhase := GenPhase.done
    taskPhase := TaskPhase.receiving
    handshakeDone := true
    results := []
    resultClosed := false }

theorem drainedState_reachable : SessionReachable none "fd" drainedState := by
  have h0 : SessionReachable none "fd" (streaming_recognize_init none "fd") :=
    SessionReachable.init
  have h1 := h0.step (SessionStep.handshakeOk _ rfl)
  have h2 := h1.step (SessionStep.yieldConfig _ rfl (by decide))
  have h3 := h2.step (SessionStep.enqueue _ [7] rfl (Or.inr rfl))
  have h4 := h3.step (SessionStep.enqueue _ [8] rfl (Or.inr rfl))
  have h5 := h4.step (SessionStep.closeSink _ rfl)
  have h6 := h5.step (SessionStep.yieldAudio _ [7] [[8]] rfl (by decide) rfl)
  have h7 := h6.step (SessionStep.yieldAudio _ [8] [] rfl (by decide) rfl)
  have h8 := h7.step (SessionStep.genFinish _ rfl rfl rfl (by decide))
  exact h8

/-- A session hit by a mid-session stream error: the handshake had
succeeded, the config was sent and a frame was pending when the receive
loop's `unwrap()` panicked. -/
def erroredState : SessionState :=
  { usedConfig := default_config "f"
    queue := [[7]]
    sinkClosed := false
    enqueued := [[7]]
    sent := [configMsg (default_config "f")]
    genPhase := GenPhase.dead
    taskPhase := TaskPhase.panicked
    handshakeDone := true
    results := []
    resultClosed := true }

theorem erroredState_reachable : SessionReachable none "f" erroredState := by
  have h0 : SessionReachable none "f" (streaming_recognize_init none "f") :=
    SessionReachable.init
  have h1 := h0.step (SessionStep.handshakeOk _ rfl)
  have h2 := h1.step (SessionStep.yieldConfig _ rfl (by decide))
  have h3 := h2.step (SessionStep.enqueue _ [7] rfl (Or.inr rfl))
  have h4 := h3.step (SessionStep.streamError _ rfl)
  exact h4

/-- A session whose gRPC handshake failed immediately: the `unwrap()` on
line 98 panicked before anything was sent or received. -/
def connectFailedState : SessionState :=
  { usedConfig := default_config "g"
    queue := []
    sinkClosed := false
    enqueued := []
    sent := []
    genPhase := GenPhase.dead
    taskPhase := TaskPhase.panicked
    handshakeDone := false
    results := []
    resultClosed := true }

theorem connectFailedState_reachable :
    SessionReachable none "g" connectFailedState := by
  have h0 : SessionReachable none "g" (streaming_recognize_init none "g") :=
    SessionReachable.init
  exact h0.step (SessionStep.handshakeErr _ rfl)

/-- C1: for every session started by `streaming_recognize` (with any config
or none) and any number of frames enqueued before or after the start, at
most one configuration message ever appears on the request stream, only as
its first message, and once the generator runs (the stream is polled)
exactly one configuration message has been produced, first, and never
again. -/
theorem config_message_exactly_once_first {config : Option RecognitionConfig}
    {folder_id : String} {s : SessionState}
    (h : SessionReachable config folder_id s) :
    configCount s.sent ≤ 1 ∧
    (∀ m ∈ s.sent.tail, isConfigMsg m = false) ∧
    ((s.genPhase = GenPhase.looping ∨ s.genPhase = GenPhase.done) →
      configCount s.sent = 1 ∧ s.sent.head? = some (configMsg s.usedConfig)) := by
  have inv := sessionInv_reachable h
  rcases inv.sent_shape with he | ⟨audios, heq⟩
  · refine ⟨by simp [he, configCount], by simp [he], ?_⟩
    intro hg
    obtain ⟨audios, heq⟩ := inv.gen_started hg
    rw [he] at heq
    exact absurd heq (by simp)
  · refine ⟨?_, ?_, ?_⟩
    · simp [heq, configCount_shape]
    · rw [heq]
      intro m hm
      simp only [List.tail_cons] at hm
      obtain ⟨a, _, rfl⟩ := List.mem_map.mp hm
      exact isConfigMsg_audioMsg a
    · intro _
      exact ⟨by rw [heq, configCount_shape], by rw [heq]; rfl⟩

theorem config_message_exactly_once_first_witness :
    configCount demoState.sent ≤ 1 ∧
    (∀ m ∈ demoState.sent.tail, isConfigMsg m = false) ∧
    ((demoState.genPhase = GenPhase.looping ∨ demoState.genPhase = GenPhase.done) →
      configCount demoState.sent = 1 ∧
      demoState.sent.head? = some (configMsg demoState.usedConfig)) :=
  config_message_exactly_once_first demoState_reachable

/-- C2: in every reachable session state, the audio payloads written to
the request stream so far, followed by the frames still queued, are
exactly the frames enqueued, in enqueue order — so the written frames are
always an initial segment of the enqueue order (FIFO); moreover any state
holding an audio message has the configuration message as its first
stream message. -/
theorem audio_frames_fifo {config : Option RecognitionConfig}
    {folder_id : String} {s : SessionState}
    (h : SessionReachable config folder_id s) :
    audioPayloads s.sent ++ s.queue = s.enqueued ∧
    (∀ a : AudioFrame, audioMsg a ∈ s.sent →
      s.sent.head? = some (configMsg s.usedConfig)) := by
  have inv := sessionInv_reachable h
  refine ⟨inv.fifo, ?_⟩
  intro a ha
  rcases inv.sent_shape with he | ⟨audios, heq⟩
  · rw [he] at ha
    exact absurd ha (List.not_mem_nil _)
  · rw [heq]
    rfl

theorem audio_frames_fifo_witness :
    audioPayloads demoState.sent ++ demoState.queue = demoState.enqueued ∧
    (∀ a : AudioFrame, audioMsg a ∈ demoState.sent →
      demoState.sent.head? = some (configMsg demoState.usedConfig)) :=
  audio_frames_fifo demoState_reachable

/-- C3: whenever the generator finished (the stream's write half closed
normally), the sink had been closed and every enqueued frame had already
been written to the stream — the drain guarantee, and sink closure as the
only normal termination of the send side. -/
theorem drain_guarantee {config : Option RecognitionConfig}
    {folder_id : String} {s : SessionState}
    (h : SessionReachable config folder_id s)
    (hdone : s.genPhase = GenPhase.done) :
    audioPayloads s.sent = s.enqueued ∧ s.sinkClosed = true ∧ s.queue = [] := by
  have inv := sessionInv_reachable h
  obtain ⟨hq, hc⟩ := inv.drained hdone
  refine ⟨?_, hc, hq⟩
  have hf := inv.fifo
  rw [hq] at hf
  simpa using hf

theorem drain_guarantee_witness :
    audioPayloads drainedState.sent = drainedState.enqueued ∧
    drainedState.sinkClosed = true ∧ drainedState.queue = [] :=
  drain_guarantee drainedState_reachable rfl

/-- C4 counterexample: a session in which the handshake succeeded and then
a mid-session stream error panicked the receive loop.  The result source
observes zero terminal error markers — the channel merely closes — so the
claimed "exactly one terminal error marker" is false at this session. -/
theorem stream_error_no_marker_cex :
    SessionReachable none "f" erroredState ∧
    erroredState.handshakeDone = true ∧
    erroredState.taskPhase = TaskPhase.panicked ∧
    erroredState.resultClosed = true ∧
    ¬ errorCount erroredState.results = 1 :=
  ⟨erroredState_reachable, rfl, rfl, rfl, by decide⟩

/-- C4 (amended): after a mid-session stream or protocol error, the
background task is dead: the result channel is closed without any error
marker ever having been emitted (closure is the only signal), and from
then on no further message of any kind is written to the stream or the
result channel and the session stays terminal. -/
theorem stream_error_terminal_silent {config : Option RecognitionConfig}
    {folder_id : String} {s : SessionState}
    (h : SessionReachable config folder_id s)
    (hp : s.taskPhase = TaskPhase.panicked) :
    s.resultClosed = true ∧ errorCount s.results = 0 ∧
    s.genPhase = GenPhase.dead ∧
    ∀ t, SessionStepStar s t →
      t.sent = s.sent ∧ t.results = s.results ∧
      t.taskPhase = TaskPhase.panicked := by
  have inv := sessionInv_reachable h
  obtain ⟨hrc, hdead⟩ := inv.panicked_closed hp
  refine ⟨hrc, inv.no_marker, hdead, ?_⟩
  intro t ht
  obtain ⟨a, _, c, d, _, _⟩ := sessionStepStar_panicked_frozen hp hdead ht
  exact ⟨c, d, a⟩

theorem stream_error_terminal_silent_witness :
    erroredState.resultClosed = true ∧ errorCount erroredState.results = 0 ∧
    erroredState.genPhase = GenPhase.dead ∧
    ∀ t, SessionStepStar erroredState t →
      t.sent = erroredState.sent ∧ t.results = erroredState.results ∧
      t.taskPhase = TaskPhase.panicked :=
  stream_error_terminal_silent erroredState_reachable rfl

/-- C8 counterexample: a session whose handshake failed.  Both channels do
close (the result channel is closed and the generator dropped), but the
result source observes zero error markers, not one, refuting "closed with
an error marker, surfaced exactly once via the result channel". -/
theorem handshake_failure_no_marker_cex :
    SessionReachable none "g" connectFailedState ∧
    connectFailedState.taskPhase = TaskPhase.panicked ∧
    connectFailedState.handshakeDone = false ∧
    connectFailedState.resultClosed = true ∧
    ¬ errorCount connectFailedState.results = 1 :=
  ⟨connectFailedState_reachable, rfl, rfl, rfl, by decide⟩

/-- C8 (amended): if the handshake fails, the session never was and never
will be in the streaming (receive-loop) phase, the result channel is
closed having delivered nothing — no error marker, closure being the only
signal — and it stays that way forever; the request stream is likewise
frozen. -/
theorem handshake_failure_closes_silently {config : Option RecognitionConfig}
    {folder_id : String} {s : SessionState}
    (h : SessionReachable config folder_id s)
    (hp : s.taskPhase = TaskPhase.panicked)
    (hh : s.handshakeDone = false) :
    s.resultClosed = true ∧ s.results = [] ∧ s.genPhase = GenPhase.dead ∧
    ∀ t, SessionStepStar s t →
      t.taskPhase ≠ TaskPhase.receiving ∧ t.handshakeDone = false ∧
      t.results = [] ∧ t.resultClosed = true ∧ t.sent = s.sent := by
  have inv := sessionInv_reachable h
  obtain ⟨hrc, hdead⟩ := inv.panicked_closed hp
  have hres : s.results = [] := inv.pre_handshake hh
  refine ⟨hrc, hres, hdead, ?_⟩
  intro t ht
  obtain ⟨a, _, c, d, e, f⟩ := sessionStepStar_panicked_frozen hp hdead ht
  refine ⟨?_, f.trans hh, d.trans hres, e.trans hrc, c⟩
  rw [a]
  decide

theorem handshake_failure_closes_silently_witness :
    connectFailedState.resultClosed = true ∧
    connectFailedState.results = [] ∧
    connectFailedState.genPhase = GenPhase.dead ∧
    ∀ t, SessionStepStar connectFailedState t →
      t.taskPhase ≠ TaskPhase.receiving ∧ t.handshakeDone = false ∧
      t.results = [] ∧ t.resultClosed = true ∧
      t.sent = connectFailedState.sent :=
  handshake_failure_closes_silently connectFailedState_reachable rfl rfl

/-- C5: while the cached token's expiry, even reduced by any non-negative
skew margin (the code's margin is zero), lies in the future, two
consecutive `get_auth_token` calls both return the cached token string
directly, leave the cache untouched, and perform zero (hence at most one)
network exchanges — whatever the network would have answered. -/
theorem valid_token_cached_no_fetch (res : TokenRequestResult)
    (margin now1 now2 : Int) (o1 o2 : FetchOutcome)
    (hm : 0 ≤ margin)
    (h1 : res.expires_at - margin - now1 > 0)
    (h2 : res.expires_at - margin - now2 > 0) :
    get_auth_token (some res) now1 o1 =
      { token := some res.iam_token, cache := some res, fetches := 0 } ∧
    get_auth_token (get_auth_token (some res) now1 o1).cache now2 o2 =
      { token := some res.iam_token, cache := some res, fetches := 0 } := by
  have he1 : res.expires_at - now1 > 0 := by omega
  have he2 : res.expires_at - now2 > 0 := by omega
  have g1 : get_auth_token (some res) now1 o1 =
      { token := some res.iam_token, cache := some res, fetches := 0 } := by
    simp only [get_auth_token]
    rw [if_pos he1]
  refine ⟨g1, ?_⟩
  rw [g1]
  simp only [get_auth_token]
  rw [if_pos he2]

theorem valid_token_cached_no_fetch_witness :
    get_auth_token (some { iam_token := "tok", expires_at := 1000 }) 100
        FetchOutcome.failure =
      { token := some "tok", cache := some { iam_token := "tok", expires_at := 1000 },
        fetches := 0 } ∧
    get_auth_token
        (get_auth_token (some { iam_token := "tok", expires_at := 1000 }) 100
          FetchOutcome.failure).cache 101 FetchOutcome.failure =
      { token := some "tok", cache := some { iam_token := "tok", expires_at := 1000 },
        fetches := 0 } :=
  valid_token_cached_no_fetch { iam_token := "tok", expires_at := 1000 }
    10 100 101 FetchOutcome.failure FetchOutcome.failure
    (by decide) (by decide) (by decide)

/-- C6: with the cached token expired, `get_auth_token` performs exactly
one fresh exchange before returning, returns the newly fetched token
string, and publishes the fetched result in the cache in place of the old
one; when the exchange endpoint answers with an expiry in the future (its
normal behaviour), the returned token's expiry is in the future. -/
theorem expired_token_refetched (old fresh : TokenRequestResult) (now : Int)
    (hexp : ¬ (old.expires_at - now > 0))
    (hfresh : fresh.expires_at - now > 0) :
    get_auth_token (some old) now (FetchOutcome.ok fresh) =
      { token := some fresh.iam_token, cache := some fresh, fetches := 1 } ∧
    fresh.expires_at - now > 0 := by
  refine ⟨?_, hfresh⟩
  simp only [get_auth_token, get_iam_token]
  rw [if_neg hexp]

theorem expired_token_refetched_witness :
    get_auth_token (some { iam_token := "old", expires_at := 50 }) 100
        (FetchOutcome.ok { iam_token := "new", expires_at := 5000 }) =
      { token := some "new",
        cache := some { iam_token := "new", expires_at := 5000 }, fetches := 1 } ∧
    ({ iam_token := "new", expires_at := 5000 } : TokenRequestResult).expires_at
        - 100 > 0 :=
  expired_token_refetched { iam_token := "old", expires_at := 50 }
    { iam_token := "new", expires_at := 5000 } 100 (by decide) (by decide)

/-- The stale cached token used in the auth-failure scenario. -/
def staleToken : TokenRequestResult := { iam_token := "stale", expires_at := 50 }

/-- C7 counterexample: with an expired cache entry and a failing signing or
exchange, `get_auth_token` returns no value at all — the Rust code panics
on `unwrap()` inside `get_iam_token` — instead of returning an `AuthError`
(no error value exists anywhere in its interface). -/
theorem auth_failure_returns_no_value_cex :
    (get_auth_token (some staleToken) 100 FetchOutcome.failure).token = none ∧
    (get_auth_token (some staleToken) 100 FetchOutcome.failure).fetches = 1 ∧
    (get_auth_token (some staleToken) 100 FetchOutcome.failure).cache =
      some staleToken := by
  refine ⟨?_, ?_, ?_⟩ <;> rfl

/-- C7 (amended): when assertion signing or the token exchange fails, the
call returns no value to the awaiting caller (the code panics rather than
returning an `AuthError`), but the cache is not poisoned: it keeps exactly
its previous content, and a later call retries the exchange independently
and succeeds once the exchange does. -/
theorem auth_failure_no_cache_poison (cache : TokenCache) (now now2 : Int)
    (fresh : TokenRequestResult)
    (h1 : cache = none ∨ ∃ res, cache = some res ∧ ¬ (res.expires_at - now > 0))
    (h2 : cache = none ∨ ∃ res, cache = some res ∧ ¬ (res.expires_at - now2 > 0)) :
    (get_auth_token cache now FetchOutcome.failure).token = none ∧
    (get_auth_token cache now FetchOutcome.failure).cache = cache ∧
    (get_auth_token cache now2 (FetchOutcome.ok fresh)).token =
      some fresh.iam_token ∧
    (get_auth_token cache now2 (FetchOutcome.ok fresh)).fetches = 1 := by
  rcases h1 with rfl | ⟨res, rfl, hx⟩
  · exact ⟨rfl, rfl, rfl, rfl⟩
  · obtain ⟨res', heq, hx2⟩ := h2.resolve_left (by simp)
    obtain rfl : res = res' := by injection heq
    have e1 : get_auth_token (some res) now FetchOutcome.failure =
        { token := none, cache := some res, fetches := 1 } := by
      simp only [get_auth_token, get_iam_token]
      rw [if_neg hx]
    have e2 : get_auth_token (some res) now2 (FetchOutcome.ok fresh) =
        { token := some fresh.iam_token, cache := some fresh, fetches := 1 } := by
      simp only [get_auth_token, get_iam_token]
      rw [if_neg hx2]
    rw [e1, e2]
    exact ⟨rfl, rfl, rfl, rfl⟩

theorem auth_failure_no_cache_poison_witness :
    (get_auth_token (some staleToken) 100 FetchOutcome.failure).token = none ∧
    (get_auth_token (some staleToken) 100 FetchOutcome.failure).cache =
      some staleToken ∧
    (get_auth_token (some staleToken) 200
        (FetchOutcome.ok { iam_token := "new", expires_at := 10000 })).token =
      some "new" ∧
    (get_auth_token (some staleToken) 200
        (FetchOutcome.ok { iam_token := "new", expires_at := 10000 })).fetches = 1 :=
  auth_failure_no_cache_poison (some staleToken) 100 200
    { iam_token := "new", expires_at := 10000 }
    (Or.inr ⟨staleToken, rfl, by decide⟩)
    (Or.inr ⟨staleToken, rfl, by decide⟩)

/-- C9: with no config supplied, the configuration in force is exactly the
fixed default — Linear16Pcm encoding, 8000 Hz, language "ru-RU", profanity
filter off, model "general:rc", partial results on, single utterance off,
one audio channel, raw results on, with the service's configured folder
id — and every nonempty request stream of such a session starts with
exactly that configuration message. -/
theorem default_config_exact (folder_id : String) :
    default_config folder_id =
      { specification := some
          { audio_encoding := AudioEncoding.linear16Pcm.toInt
            sample_rate_hertz := 8000
            language_code := "ru-RU"
            profanity_filter := false
            model := "general:rc"
            partial_results := true
            single_utterance := false
            audio_channel_count := 1
            raw_results := true }
        folder_id := folder_id } ∧
    ∀ s : SessionState, SessionReachable none folder_id s → s.sent ≠ [] →
      s.sent.head? = some (configMsg (default_config folder_id)) := by
  refine ⟨rfl, ?_⟩
  intro s h hne
  have inv := sessionInv_reachable h
  rcases inv.sent_shape with he | ⟨audios, heq⟩
  · exact absurd he hne
  · rw [heq, sessionReachable_usedConfig h]
    rfl

/-- C10: every signed assertion's expiry claim is its issued-at claim plus
exactly 3600 seconds (for any clock value that does not overflow `u64`,
i.e. any realistic one), and the issuer, audience, key id and algorithm
are fixed constants independent of the call. -/
theorem assertion_claims_fixed (now : Nat) (hnow : now + 3600 < 2 ^ 64) :
    (assertion_claims now).exp = (assertion_claims now).iat + 3600 ∧
    (assertion_claims now).iss = "ajede2r7i8dtgcgehtdl" ∧
    (assertion_claims now).aud = "https://iam.api.cloud.yandex.net/iam/v1/tokens" ∧
    assertion_header.kid = some "aje04ppj0e85d7njj0sf" ∧
    assertion_header.alg = "PS256" := by
  refine ⟨?_, rfl, rfl, rfl, rfl⟩
  show hour_later now = now + 3600
  unfold hour_later
  omega

theorem assertion_claims_fixed_witness :
    (assertion_claims 1700000000).exp = (assertion_claims 1700000000).iat + 3600 ∧
    (assertion_claims 1700000000).iss = "ajede2r7i8dtgcgehtdl" ∧
    (assertion_claims 1700000000).aud =
      "https://iam.api.cloud.yandex.net/iam/v1/tokens" ∧
    assertion_header.kid = some "aje04ppj0e85d7njj0sf" ∧
    assertion_header.alg = "PS256" :=
  assertion_claims_fixed 1700000000 (by norm_num)
